import Mathlib

/-
Verification of the ephemeral-be gateway against its specification.

The development shallow-embeds the parts of the code base that the checked
properties are about:

* the quota engine (src/app/quota_service.py): `check_quota`,
  `increment_usage` and `check_and_increment_usage` over counter values;
* the publish route (src/app/routers/topics.py, `publish`): project and
  topic resolution, the per-message payload-size validation, the quota
  check, the broker produce step and the usage increment;
* the stream route prologue (src/app/routers/topics.py, `stream`);
* the connection registry (src/app/connection_tracker.py);
* the credential hasher and token codec (src/app/auth.py), with the
  external bcrypt / HMAC primitives taken as parameters constrained only
  by their library contracts;
* the authentication resolver (src/app/dependencies.py).

Database rows are embedded by their counter values: the sources create
missing rows holding zeros before operating on them, so an absent row and
a zero row are indistinguishable at the value level and the embedding
carries values only.  Row locks taken with SELECT ... FOR UPDATE NOWAIT
are modelled by Boolean lock-availability parameters: `False` stands for
the OperationalError (lock not available) the database raises.
-/

/-! ## Quota engine constants (src/app/quota_service.py lines 10-16) -/

def FREE_TIER_MESSAGES_LIMIT : Nat := 10000

def FREE_TIER_BYTES_LIMIT : Nat := 100 * 1024 * 1024

def MAX_TOTAL_MESSAGES_IN : Nat := 200000

def MAX_TOTAL_BYTES_IN : Nat := 2000000000

/-- Maximum payload size per message (src/app/routers/topics.py line 25). -/
def MAX_PAYLOAD_SIZE : Nat := 64 * 1024

/-! ## Counter values -/

/-- The four counters of a UsageCounter row for one (tenant, project, day). -/
structure Counters where
  messagesIn : Nat
  messagesOut : Nat
  bytesIn : Nat
  bytesOut : Nat
deriving DecidableEq, Repr

/-- The counters of the GlobalUsageCounter row for one day. -/
structure GCounters where
  messagesIn : Nat
  bytesIn : Nat
deriving DecidableEq, Repr

/-- Traffic direction of a quota operation, the `direction` argument. -/
inductive Direction where
  | dIn
  | dOut
deriving DecidableEq, Repr

/-- The quota state a single check-and-increment call touches: the
UsageCounter row of the request's (tenant, project) for today, and the
global row for today. -/
structure QState where
  user : Counters
  global : GCounters
deriving DecidableEq, Repr

/-- Which limit a 429 quota rejection reports (the four `detail` strings of
quota_service.py: cluster-wide message / cluster-wide bytes / free-tier
message / free-tier bytes). -/
inductive QuotaErr where
  | globalMessages
  | globalBytes
  | userMessages
  | userBytes
deriving DecidableEq, Repr

/-- Failure of `check_quota`: either a row lock was unavailable (the
OperationalError raised by SELECT ... FOR UPDATE NOWAIT) or a quota limit
was breached (HTTPException 429). -/
inductive CheckErr where
  | lockUnavailable
  | quota (e : QuotaErr)
deriving DecidableEq, Repr

/-- `check_quota` (src/app/quota_service.py lines 19-121).  Checks the
global limits first for inbound traffic, then the per-user limits of the
requested direction, in the source's order.  It creates missing rows with
zero counters but never changes counter values, so at the value level it
is a pure check.  `lockOk` models whether the row locks it takes acquire;
`false` surfaces as `lockUnavailable`. -/
def check_quota (st : QState) (dir : Direction) (bytesCount msgCount : Nat)
    (lockOk : Bool) : Option CheckErr :=
  match dir with
  | .dIn =>
    if !lockOk then some .lockUnavailable
    else if st.global.messagesIn + msgCount > MAX_TOTAL_MESSAGES_IN then
      some (.quota .globalMessages)
    else if st.global.bytesIn + bytesCount > MAX_TOTAL_BYTES_IN then
      some (.quota .globalBytes)
    else if st.user.messagesIn + msgCount > FREE_TIER_MESSAGES_LIMIT then
      some (.quota .userMessages)
    else if st.user.bytesIn + bytesCount > FREE_TIER_BYTES_LIMIT then
      some (.quota .userBytes)
    else none
  | .dOut =>
    if !lockOk then some .lockUnavailable
    else if st.user.messagesOut + msgCount > FREE_TIER_MESSAGES_LIMIT then
      some (.quota .userMessages)
    else if st.user.bytesOut + bytesCount > FREE_TIER_BYTES_LIMIT then
      some (.quota .userBytes)
    else none

/-- `increment_usage` (src/app/quota_service.py lines 124-202): adds the
byte and message counts to the direction-specific counters, and to the
global inbound counters when the direction is inbound, then commits. -/
def increment_usage (st : QState) (dir : Direction) (bytesCount msgCount : Nat) :
    QState :=
  match dir with
  | .dIn =>
    { user := { st.user with
        messagesIn := st.user.messagesIn + msgCount
        bytesIn := st.user.bytesIn + bytesCount }
      global := { messagesIn := st.global.messagesIn + msgCount
                  bytesIn := st.global.bytesIn + bytesCount } }
  | .dOut =>
    { st with user := { st.user with
        messagesOut := st.user.messagesOut + msgCount
        bytesOut := st.user.bytesOut + bytesCount } }

/-- One body execution of the `check_and_increment_usage` retry loop
(src/app/quota_service.py lines 239-348), with its row locks acquired.
The global counters are written before the per-user checks run, but every
breach branch rolls the whole transaction back, so a breach returns no
state: the caller keeps the pre-call counters. -/
def checkAndIncrementAttempt (st : QState) (dir : Direction)
    (bytesCount msgCount : Nat) : Except QuotaErr QState :=
  match dir with
  | .dIn =>
    if st.global.messagesIn + msgCount > MAX_TOTAL_MESSAGES_IN then
      .error .globalMessages
    else if st.global.bytesIn + bytesCount > MAX_TOTAL_BYTES_IN then
      .error .globalBytes
    else if st.user.messagesIn + msgCount > FREE_TIER_MESSAGES_LIMIT then
      .error .userMessages
    else if st.user.bytesIn + bytesCount > FREE_TIER_BYTES_LIMIT then
      .error .userBytes
    else
      .ok { user := { st.user with
              messagesIn := st.user.messagesIn + msgCount
              bytesIn := st.user.bytesIn + bytesCount }
            global := { messagesIn := st.global.messagesIn + msgCount
                        bytesIn := st.global.bytesIn + bytesCount } }
  | .dOut =>
    if st.user.messagesOut + msgCount > FREE_TIER_MESSAGES_LIMIT then
      .error .userMessages
    else if st.user.bytesOut + bytesCount > FREE_TIER_BYTES_LIMIT then
      .error .userBytes
    else
      .ok { st with user := { st.user with
              messagesOut := st.user.messagesOut + msgCount
              bytesOut := st.user.bytesOut + bytesCount } }

/-- Failure of `check_and_increment_usage`: a 429 quota breach, re-raised
immediately without retry, or the 503 raised once the lock retries are
exhausted. -/
inductive CaiErr where
  | quota (e : QuotaErr)
  | transient503
deriving DecidableEq, Repr

/-- `max_retries` default of `check_and_increment_usage`. -/
def MAX_RETRIES : Nat := 3

/-- The `while retry_count <= max_retries` loop of
`check_and_increment_usage` (src/app/quota_service.py lines 239-399).
`k` is `retry_count`; `lockAvail k` tells whether attempt `k` acquires its
row locks.  On a lock failure with retries left the transaction is rolled
back, the loop sleeps `10 ms * 2 ^ k` (initial_retry_delay 0.01 s doubling)
and retries; with retries exhausted it raises the 503.  The returned list
collects the sleeps, in milliseconds, in order.  The fuel argument only
bounds the recursion; started at `MAX_RETRIES + 1` with `k = 0` it never
reaches zero. -/
def caiAux (st : QState) (dir : Direction) (bytesCount msgCount : Nat)
    (lockAvail : Nat → Bool) : Nat → Nat → List Nat × Except CaiErr QState
  | _, 0 => ([], .error .transient503)
  | k, fuel + 1 =>
    if lockAvail k then
      match checkAndIncrementAttempt st dir bytesCount msgCount with
      | .ok st' => ([], .ok st')
      | .error e => ([], .error (.quota e))
    else if k < MAX_RETRIES then
      let r := caiAux st dir bytesCount msgCount lockAvail (k + 1) fuel
      (10 * 2 ^ k :: r.1, r.2)
    else
      ([], .error .transient503)

/-- `check_and_increment_usage` (src/app/quota_service.py lines 205-399)
with its default retry parameters. -/
def check_and_increment_usage (st : QState) (dir : Direction)
    (bytesCount msgCount : Nat) (lockAvail : Nat → Bool) :
    List Nat × Except CaiErr QState :=
  caiAux st dir bytesCount msgCount lockAvail 0 (MAX_RETRIES + 1)

/-- Running `check_and_increment_usage` against a session: an error leaves
the counters at their pre-call values (the function rolls back before
raising), a success installs the incremented counters.  Result components:
final state, the sleeps performed, the error if any. -/
def caiRun (st : QState) (dir : Direction) (bytesCount msgCount : Nat)
    (lockAvail : Nat → Bool) : QState × List Nat × Option CaiErr :=
  match check_and_increment_usage st dir bytesCount msgCount lockAvail with
  | (sleeps, .ok st') => (st', sleeps, none)
  | (sleeps, .error e) => (st, sleeps, some e)

/-- The breach condition of one check-and-increment call: adding the
request to the direction-specific per-tenant counters would exceed a free
tier limit, or, inbound, the global counters would pass a cluster-wide
limit. -/
def breachCond (st : QState) (dir : Direction) (bytesCount msgCount : Nat) :
    Prop :=
  match dir with
  | .dIn =>
    st.global.messagesIn + msgCount > MAX_TOTAL_MESSAGES_IN ∨
    st.global.bytesIn + bytesCount > MAX_TOTAL_BYTES_IN ∨
    st.user.messagesIn + msgCount > FREE_TIER_MESSAGES_LIMIT ∨
    st.user.bytesIn + bytesCount > FREE_TIER_BYTES_LIMIT
  | .dOut =>
    st.user.messagesOut + msgCount > FREE_TIER_MESSAGES_LIMIT ∨
    st.user.bytesOut + bytesCount > FREE_TIER_BYTES_LIMIT

instance (st : QState) (dir : Direction) (b m : Nat) :
    Decidable (breachCond st dir b m) := by
  unfold breachCond
  cases dir <;> infer_instance

/-- One uncontended check-and-increment call, as a state transition. -/
def quotaStep (st : QState) (op : Direction × Nat × Nat) : QState :=
  (caiRun st op.1 op.2.1 op.2.2 (fun _ => true)).1

/-- A day of check-and-increment traffic for one (tenant, project),
starting from the lazily created zero rows. -/
def runQuota (ops : List (Direction × Nat × Nat)) : QState :=
  ops.foldl quotaStep { user := ⟨0, 0, 0, 0⟩, global := ⟨0, 0⟩ }

/-! ## JSON encoding of message bodies

The publish route measures each message as
`len(json.dumps(msg.value).encode('utf-8'))`.  `json.dumps` is the Python
standard library encoder with its defaults: item separator `, `, key
separator `: `, and `ensure_ascii=True`, which escapes every character
outside the printable ASCII range, so the encoder output is pure ASCII
and its UTF-8 byte length equals its character count. -/

/-- JSON values: the `value` field of a publish-request message. -/
inductive Json where
  | null
  | bool (b : Bool)
  | num (n : Int)
  | str (s : List Char)
  | arr (elems : List Json)
  | obj (members : List (List Char × Json))
deriving Repr

/-- The `k`-th hexadecimal nibble of `n`, counted from the least
significant, as a lowercase digit character. -/
def hexNib (n k : Nat) : Char :=
  let d := n / 16 ^ k % 16
  Char.ofNat (if d < 10 then 48 + d else 87 + d)

/-- A `\uXXXX` escape for a UTF-16 code unit, four nibbles from the most
significant down. -/
def uEsc (n : Nat) : List Char :=
  '\\' :: 'u' :: ((List.range 4).reverse.map (hexNib n))

/-- The short escapes of the CPython encoder: each escapable character
paired with the letter that follows the backslash. -/
def shortEscapes : List (Char × Char) :=
  [('"', '"'), ('\\', '\\'), (Char.ofNat 8, 'b'), (Char.ofNat 9, 't'),
   (Char.ofNat 10, 'n'), (Char.ofNat 12, 'f'), (Char.ofNat 13, 'r')]

/-- Encoding of one character inside a JSON string, following the CPython
`ensure_ascii` encoder: the two-character short escapes above, `\uXXXX`
for the remaining characters outside `0x20 .. 0x7e` (a surrogate pair
above 0xffff), and the character itself otherwise. -/
def escChar (c : Char) : List Char :=
  match shortEscapes.find? (fun pr => pr.1 = c) with
  | some pr => ['\\', pr.2]
  | none =>
    if c.toNat < 32 ∨ c.toNat > 126 then
      if c.toNat < 65536 then uEsc c.toNat
      else uEsc (55296 + (c.toNat - 65536) / 1024) ++
           uEsc (56320 + (c.toNat - 65536) % 1024)
    else [c]

/-- A JSON string literal: quote, escaped characters, quote. -/
def encodeJsonString (s : List Char) : List Char :=
  '"' :: (s.map escChar).flatten ++ ['"']

mutual

/-- `json.dumps` with CPython's default options, over the character list
of its output. -/
def pyDumps : Json → List Char
  | .null => "null".data
  | .bool b => (cond b "true" "false").data
  | .num n => (toString n).data
  | .str s => encodeJsonString s
  | .arr elems => '[' :: pyDumpsArr elems ++ [']']
  | .obj members => Char.ofNat 123 :: pyDumpsObj members ++ [Char.ofNat 125]

/-- Array elements joined by the default item separator. -/
def pyDumpsArr : List Json → List Char
  | [] => []
  | [v] => pyDumps v
  | v :: rest => pyDumps v ++ [',', ' '] ++ pyDumpsArr rest

/-- Object members joined by the default separators. -/
def pyDumpsObj : List (List Char × Json) → List Char
  | [] => []
  | [(k, v)] => encodeJsonString k ++ [':', ' '] ++ pyDumps v
  | (k, v) :: rest =>
    encodeJsonString k ++ [':', ' '] ++ pyDumps v ++ [',', ' '] ++
    pyDumpsObj rest

end

/-- The byte size the publish route computes for one message:
`len(json.dumps(msg.value).encode('utf-8'))` (src/app/routers/topics.py
line 134).  The `ensure_ascii` output is pure ASCII, so the UTF-8 byte
length is the character count. -/
def msgBytes (v : Json) : Nat := (pyDumps v).length

/-! ## Relational data the publish route reads -/

/-- A Project row: identifier, owning tenant, default flag. -/
structure ProjectRec where
  id : Nat
  userId : Nat
  isDefault : Bool
deriving DecidableEq, Repr

/-- A Topic row: identifier, owning project, display name, broker topic
name. -/
structure TopicRec where
  id : Nat
  projectId : Nat
  name : String
  kafkaTopicName : String
deriving DecidableEq, Repr

/-- Replace the value of the first entry holding a key, or append a new
entry: the effect of an UPDATE-or-INSERT on an association list. -/
def setEntry {α β : Type} [DecidableEq α] :
    List (α × β) → α → β → List (α × β)
  | [], k, v => [(k, v)]
  | e :: rest, k, v =>
    if e.1 = k then (k, v) :: rest else e :: setEntry rest k v

/-- The database state the publish route touches: project rows, topic
rows, today's UsageCounter values keyed by (tenant id, project id), and
today's GlobalUsageCounter values. -/
structure Db where
  projects : List ProjectRec
  topics : List TopicRec
  usage : List ((Nat × Nat) × Counters)
  global : GCounters
deriving Repr

/-- Today's counters of a (tenant, project): the stored row, or the zero
values a lazily created row starts from. -/
def Db.getUsage (db : Db) (u p : Nat) : Counters :=
  match db.usage.find? (fun r => r.1 = (u, p)) with
  | some r => r.2
  | none => ⟨0, 0, 0, 0⟩

/-- The quota state of one (tenant, project) inside the database. -/
def Db.qstate (db : Db) (u p : Nat) : QState :=
  { user := db.getUsage u p, global := db.global }

/-- Write back the quota state of one (tenant, project). -/
def Db.putQState (db : Db) (u p : Nat) (st : QState) : Db :=
  { db with usage := setEntry db.usage (u, p) st.user, global := st.global }

/-! ## The publish route (src/app/routers/topics.py lines 74-221) -/

/-- The `detail` of a publish response, as a structured value. -/
inductive PubDetail where
  | ok
  | defaultProjectNotFound
  | projectNotFound
  | topicNotFound
  | payloadTooLarge (index size : Nat)
  | quotaExceeded (e : QuotaErr)
  | unhandledLockError
  | kafkaPublishFailed
deriving DecidableEq, Repr

/-- Observable outcome of one publish request: HTTP status, detail, the
broker sends performed as (broker topic name, value) pairs in order, and
the database afterwards. -/
structure PubOutcome where
  status : Nat
  detail : PubDetail
  produced : List (String × Json)
  db : Db
deriving Repr

/-- Project resolution of the publish route (src/app/routers/topics.py
lines 86-108): a bearer identity (no project scope) resolves the tenant's
default project, an API-key scope is verified to belong to the tenant;
either miss is a 404. -/
def resolveProjectId (db : Db) (userId : Nat) : Option Nat → Except PubDetail Nat
  | none =>
    match db.projects.find? (fun p => p.userId = userId && p.isDefault) with
    | none => .error .defaultProjectNotFound
    | some proj => .ok proj.id
  | some pid =>
    match db.projects.find? (fun p => p.id = pid && p.userId = userId) with
    | none => .error .projectNotFound
    | some _ => .ok pid

/-- Topic resolution (src/app/routers/topics.py lines 110-127): first by
display name within the resolved project, then by broker topic name within
the same project. -/
def findTopic (db : Db) (projectId : Nat) (topicName : String) : Option TopicRec :=
  match db.topics.find? (fun t => t.name = topicName && t.projectId = projectId) with
  | some t => some t
  | none =>
    db.topics.find? (fun t => t.kafkaTopicName = topicName && t.projectId = projectId)

/-- The payload-size validation loop (src/app/routers/topics.py lines
132-149): the index and size of the first message whose JSON encoding
exceeds MAX_PAYLOAD_SIZE, if any. -/
def firstOversize : List Json → Option (Nat × Nat)
  | [] => none
  | v :: rest =>
    if msgBytes v > MAX_PAYLOAD_SIZE then some (0, msgBytes v)
    else
      match firstOversize rest with
      | some (i, s) => some (i + 1, s)
      | none => none

/-- The publish route after project resolution.  Mirrors the source order:
topic resolution (404), payload validation (413), `check_quota` (429 on
breach; a lock-unavailable OperationalError is not caught by the route and
surfaces as a generic 500), the synchronous broker produce (`kafkaOk`
false: every send fails, the route answers 500 *before* reaching
`increment_usage`), and only then `increment_usage` and the 200 answer. -/
def publishWithProject (db : Db) (userId pid : Nat) (topicName : String)
    (messages : List Json) (kafkaOk lockOk : Bool) : PubOutcome :=
  match findTopic db pid topicName with
  | none => { status := 404, detail := .topicNotFound, produced := [], db := db }
  | some topic =>
    match firstOversize messages with
    | some (i, sz) =>
      { status := 413, detail := .payloadTooLarge i sz, produced := [], db := db }
    | none =>
      match check_quota (db.qstate userId pid) .dIn
          ((messages.map msgBytes).sum) messages.length lockOk with
      | some .lockUnavailable =>
        { status := 500, detail := .unhandledLockError, produced := [], db := db }
      | some (.quota e) =>
        { status := 429, detail := .quotaExceeded e, produced := [], db := db }
      | none =>
        if kafkaOk then
          { status := 200, detail := .ok
            produced := messages.map (fun v => (topic.kafkaTopicName, v))
            db := db.putQState userId pid
              (increment_usage (db.qstate userId pid) .dIn
                ((messages.map msgBytes).sum) messages.length) }
        else
          { status := 500, detail := .kafkaPublishFailed, produced := [], db := db }

/-- POST /topics/{topic_name}/publish (src/app/routers/topics.py lines
74-221) for an authenticated identity `(userId, scope)`, where `scope` is
the API-key project or `none` under a bearer token. -/
def publish (db : Db) (userId : Nat) (scope : Option Nat) (topicName : String)
    (messages : List Json) (kafkaOk lockOk : Bool) : PubOutcome :=
  match resolveProjectId db userId scope with
  | .error d => { status := 404, detail := d, produced := [], db := db }
  | .ok pid => publishWithProject db userId pid topicName messages kafkaOk lockOk

/-! ## The stream route prologue (src/app/routers/topics.py lines 224-297)

The handler body begins

    request_id = getattr(request.state, "request_id", None)   -- line 233
    user_id = str(user.id)                                    -- line 234
    user, project_id = user_project                           -- line 235

`user` is a local of the function (it is assigned by the tuple unpacking
on line 235), so reading it on line 234 raises UnboundLocalError before
any project, topic, admission or consumer logic runs; the framework maps
the unhandled exception to a generic 500 response. -/

/-- Observable outcome of one GET /topics/{topic_name}/stream request:
HTTP status and whether the request registered a connection in the
registry. -/
structure StreamOutcome where
  status : Nat
  registered : Bool
deriving DecidableEq, Repr

/-- The stream handler for an authenticated identity.  Line 234 evaluates
`str(user.id)` while the local `user` is still unbound, so every call
terminates with the unhandled-exception 500 regardless of its inputs. -/
def streamEndpoint (_db : Db) (_userId : Nat) (_scope : Option Nat)
    (_topicName : String) : StreamOutcome :=
  { status := 500, registered := false }

/-! ## The connection registry (src/app/connection_tracker.py) -/

/-- MAX_CONNECTIONS_PER_USER (src/app/connection_tracker.py line 15). -/
def MAX_CONNECTIONS_PER_USER : Nat := 3

/-- A ConnectionInfo descriptor: connection identifier and topic display
name. -/
structure ConnectionInfo where
  connectionId : String
  topicName : String
deriving DecidableEq, Repr

/-- The `_connections` map: tenant identifier to its set of descriptors,
as an association list of duplicate-free lists. -/
abbrev ConnMap : Type := List (String × List ConnectionInfo)

/-- The set of descriptors a tenant currently holds, if it has an entry. -/
def lookupConns (m : ConnMap) (userId : String) : Option (List ConnectionInfo) :=
  ((m : List (String × List ConnectionInfo)).find? (fun e => e.1 = userId)).map (·.2)

/-- Store a tenant's descriptor set. -/
def setConns (m : ConnMap) (userId : String) (cs : List ConnectionInfo) : ConnMap :=
  setEntry (m : List (String × List ConnectionInfo)) userId cs

/-- Drop a tenant's entry, the `del _connections[user_id]` step. -/
def delConns (m : ConnMap) (userId : String) : ConnMap :=
  (m : List (String × List ConnectionInfo)).filter (fun e => !(e.1 = userId))

/-- Python set add: a no-op when the element is already present. -/
def setAdd (cs : List ConnectionInfo) (c : ConnectionInfo) : List ConnectionInfo :=
  if c ∈ cs then cs else c :: cs

/-- `register_connection` (src/app/connection_tracker.py lines 18-38).
`freshId` is the `str(uuid.uuid4())` drawn before the lock is taken.  A
missing tenant entry is created empty and, with the limit positive, always
passes the guard; a tenant already holding MAX_CONNECTIONS_PER_USER or
more descriptors is turned away with `(False, "")` and an unchanged map. -/
def register_connection (m : ConnMap) (userId topicName freshId : String) :
    (Bool × String) × ConnMap :=
  match lookupConns m userId with
  | some cs =>
    if MAX_CONNECTIONS_PER_USER ≤ cs.length then ((false, ""), m)
    else ((true, freshId), setConns m userId (setAdd cs ⟨freshId, topicName⟩))
  | none =>
    ((true, freshId), setConns m userId [⟨freshId, topicName⟩])

/-- `unregister_connection` (src/app/connection_tracker.py lines 41-51):
drops the descriptors with the given identifier and prunes the tenant's
entry when the remaining set is empty; a missing tenant entry is a no-op. -/
def unregister_connection (m : ConnMap) (userId connectionId : String) : ConnMap :=
  match lookupConns m userId with
  | none => m
  | some cs =>
    let cs' := cs.filter (fun c => !(c.connectionId = connectionId))
    if cs'.length = 0 then delConns m userId else setConns m userId cs'

/-- One registry call, for stating invariants over call sequences. -/
inductive TrackerOp where
  | reg (userId topicName freshId : String)
  | unreg (userId connectionId : String)

/-- Apply one registry call to the map. -/
def applyTrackerOp (m : ConnMap) : TrackerOp → ConnMap
  | .reg u t f => (register_connection m u t f).2
  | .unreg u c => unregister_connection m u c

/-- The registry map after a sequence of calls against the initially empty
module-level `_connections`. -/
def runTrackerOps (ops : List TrackerOp) : ConnMap :=
  ops.foldl applyTrackerOp ([] : List (String × List ConnectionInfo))

/-! ## Credential hasher (src/app/auth.py lines 9-36)

bcrypt and hashlib are external libraries; they enter the embedding as
parameters constrained by their contracts.  `sha` stands for
`hashlib.sha256(...).digest()` over UTF-8 password bytes (a 32-byte
digest), `bcryptKdf` for bcrypt's key derivation over the salt and the
input it actually uses, namely the first 72 bytes; a stored hash is the
self-describing pair of its salt and derived key. -/

/-- The 72-byte input ceiling of bcrypt. -/
def BCRYPT_INPUT_CEILING : Nat := 72

/-- `bcrypt.hashpw(input, salt)`: derives a key from the salt and the
first 72 bytes of the input and stores both. -/
def bcryptHashpw (bcryptKdf : List Nat → List Nat → List Nat)
    (input salt : List Nat) : List Nat × List Nat :=
  (salt, bcryptKdf (input.take BCRYPT_INPUT_CEILING) salt)

/-- `bcrypt.checkpw(input, stored)`: re-derives with the stored salt and
compares against the stored key. -/
def bcryptCheckpw (bcryptKdf : List Nat → List Nat → List Nat)
    (input : List Nat) (stored : List Nat × List Nat) : Bool :=
  bcryptKdf (input.take BCRYPT_INPUT_CEILING) stored.1 = stored.2

/-- `_preprocess_password` (src/app/auth.py lines 9-16): the SHA-256
digest of the password bytes. -/
def preprocess_password (sha : List Nat → List Nat) (password : List Nat) :
    List Nat :=
  sha password

/-- `hash_password` (src/app/auth.py lines 19-26): bcrypt over the SHA-256
digest of the plaintext, against a fresh salt. -/
def hash_password (sha : List Nat → List Nat)
    (bcryptKdf : List Nat → List Nat → List Nat) (plain salt : List Nat) :
    List Nat × List Nat :=
  bcryptHashpw bcryptKdf (preprocess_password sha plain) salt

/-- `verify_password` (src/app/auth.py lines 29-36): the same pre-digest,
then the bcrypt comparison against the stored hash. -/
def verify_password (sha : List Nat → List Nat)
    (bcryptKdf : List Nat → List Nat → List Nat) (plain : List Nat)
    (stored : List Nat × List Nat) : Bool :=
  bcryptCheckpw bcryptKdf (preprocess_password sha plain) stored

/-! ## Token codec (src/app/auth.py lines 39-54)

`jose.jwt` is external: a token is its claim set (subject, absolute
expiry) plus an HMAC-SHA-256 signature of the claims under the secret,
taken as a parameter.  Verification accepts when the recomputed signature
matches and the expiry has not passed (`jose` rejects exactly when
`exp < now`). -/

/-- The claim set `{"sub": ..., "exp": ...}`; the expiry is an epoch
second. -/
structure JwtClaims where
  sub : String
  exp : Nat
deriving DecidableEq, Repr

/-- A signed token: claims plus signature bytes. -/
structure JwtToken where
  claims : JwtClaims
  sig : List Nat
deriving DecidableEq, Repr

/-- Seven days, the token lifetime, in seconds. -/
def JWT_LIFETIME : Nat := 7 * 24 * 60 * 60

/-- `create_jwt` (src/app/auth.py lines 39-44): claims carrying the
subject and an expiry seven days from now, signed under the secret. -/
def create_jwt (hmac : List Nat → JwtClaims → List Nat) (secret : List Nat)
    (now : Nat) (userId : String) : JwtToken :=
  let claims : JwtClaims := { sub := userId, exp := now + JWT_LIFETIME }
  { claims := claims, sig := hmac secret claims }

/-- `decode_jwt` (src/app/auth.py lines 47-54): the subject when the
signature verifies under the secret and the token is unexpired, `none`
otherwise. -/
def decode_jwt (hmac : List Nat → JwtClaims → List Nat) (secret : List Nat)
    (now : Nat) (token : JwtToken) : Option String :=
  if token.sig = hmac secret token.claims ∧ ¬ token.claims.exp < now then
    some token.claims.sub
  else none

/-! ## Authentication resolver (src/app/dependencies.py) -/

/-- A User row, as far as authentication reads it. -/
structure UserRec where
  id : Nat
  isActive : Bool
deriving DecidableEq, Repr

/-- `get_current_user_jwt` (src/app/dependencies.py lines 12-29): extract
the bearer credential, decode it to a subject, load the active tenant; the
returned pair always carries `None` as its project scope.  `decode` stands
for `decode_jwt` under the configured secret and `findActiveUser` for the
`User.id == user_id, User.is_active == True` query. -/
def get_current_user_jwt (credentials : Option String)
    (decode : String → Option Nat) (findActiveUser : Nat → Option UserRec) :
    Option (UserRec × Option Nat) :=
  match credentials with
  | none => none
  | some token =>
    match decode token with
    | none => none
    | some userId =>
      match findActiveUser userId with
      | none => none
      | some u => some (u, none)

/-- `get_current_user` (src/app/dependencies.py lines 90-112): the bearer
result when present, else the API-key result — whose scope is always a
concrete project — else 401. -/
def get_current_user (jwtResult : Option (UserRec × Option Nat))
    (apiKeyResult : Option (UserRec × Nat)) : Except Unit (UserRec × Option Nat) :=
  match jwtResult with
  | some r => .ok r
  | none =>
    match apiKeyResult with
    | some (u, p) => .ok (u, some p)
    | none => .error ()

/-! ## Concrete fixtures -/

/-- One tenant (id 1) with its default project (id 10) owning the topic
`events`, and no usage recorded today. -/
def dbOne : Db :=
  { projects := [{ id := 10, userId := 1, isDefault := true }]
    topics := [{ id := 100, projectId := 10, name := "events"
                 kafkaTopicName := "user_1_events" }]
    usage := []
    global := { messagesIn := 0, bytesIn := 0 } }

/-- The message body of the end-to-end publish scenario: one key, one
string value. -/
def smallMsg : Json := .obj [(['k'], .str ['v'])]

/-! ## C1 — what happens to the counters when the broker produce fails -/

/-- C1, counterexample.  The claim says that when the broker produce step
of a publish fails the response is 500 *and* the usage counters have
already been incremented by the request's counts.  On the code the quota
step before the produce is the check-only `check_quota`;
`increment_usage` runs after a successful produce only, so at this
concrete input (one valid message, broker down) the response is 500 but
the tenant's message counter still holds 0, not the 1 the claim
requires. -/
theorem c1_broker_failure_counterexample :
    (publish dbOne 1 none "events" [smallMsg] false true).status = 500
    ∧ ¬ ((publish dbOne 1 none "events" [smallMsg] false true).db.getUsage 1 10).messagesIn
        = (dbOne.getUsage 1 10).messagesIn + 1 := by
  exact ⟨rfl, by decide⟩

/-- C1, amended.  For every publish request that would succeed against a
healthy broker (status 200), running the same request against a failing
broker yields a 500 with *unchanged* counters and no produced messages:
quota is only checked, not debited, before broker confirmation, and the
increment runs after a successful produce only. -/
theorem c1_counters_unchanged_on_broker_failure
    (db : Db) (userId : Nat) (scope : Option Nat) (topicName : String)
    (messages : List Json) (lockOk : Bool)
    (h : (publish db userId scope topicName messages true lockOk).status = 200) :
    publish db userId scope topicName messages false lockOk =
      { status := 500, detail := .kafkaPublishFailed, produced := [], db := db } := by
  unfold publish at h
  cases hres : resolveProjectId db userId scope with
  | error d => simp only [hres] at h; exact absurd h (by decide)
  | ok pid =>
    simp only [hres] at h
    unfold publishWithProject at h
    cases htop : findTopic db pid topicName with
    | none => simp only [htop] at h; exact absurd h (by decide)
    | some topic =>
      simp only [htop] at h
      cases hov : firstOversize messages with
      | some pr =>
        obtain ⟨i, sz⟩ := pr
        simp only [hov] at h; exact absurd h (by decide)
      | none =>
        simp only [hov] at h
        cases hcq : check_quota (db.qstate userId pid) .dIn
            ((messages.map msgBytes).sum) messages.length lockOk with
        | some e =>
          cases e with
          | lockUnavailable => simp only [hcq] at h; exact absurd h (by decide)
          | quota q => simp only [hcq] at h; exact absurd h (by decide)
        | none =>
          unfold publish
          rw [hres]
          simp only [publishWithProject, htop, hov, hcq]
          rfl

/-- C1, witness: the amended theorem applied to the one-tenant fixture. -/
theorem c1_broker_failure_witness :
    publish dbOne 1 none "events" [smallMsg] false true =
      { status := 500, detail := .kafkaPublishFailed, produced := [], db := dbOne } :=
  c1_counters_unchanged_on_broker_failure dbOne 1 none "events" [smallMsg] true rfl

/-! ## C2 — the stream endpoint -/

/-- C2.  The claim says three concurrent SSE stream connections succeed
with 200 and a fourth is turned away with 429.  On the code, line 234 of
src/app/routers/topics.py reads the local `user` one line before the
unpacking that assigns it, so every stream request — including the first —
fails with the unhandled-exception 500 and never reaches admission; no
request answers 200. -/
theorem c2_stream_unbound_local :
    (∀ (db : Db) (userId : Nat) (scope : Option Nat) (topicName : String),
      streamEndpoint db userId scope topicName =
        { status := 500, registered := false })
    ∧ (streamEndpoint dbOne 1 none "events").status = 500
    ∧ ¬ (streamEndpoint dbOne 1 none "events").status = 200 := by
  exact ⟨fun _ _ _ _ => rfl, rfl, by decide⟩

/-! ## C3 — lock-retry behaviour of the quota step -/

/-- C3, counterexample.  The claim says a publish whose quota step cannot
acquire the row lock is retried with 10/20/40 ms sleeps and, with the
retries exhausted, answers 503.  The publish route calls the non-retrying
`check_quota`, whose lock-unavailable OperationalError escapes the
route's `except HTTPException` handler: at this concrete input (valid
message, lock held), the response is the generic 500 — neither the 503
of the claim nor a 200 after retries. -/
theorem c3_publish_lock_counterexample :
    publish dbOne 1 none "events" [smallMsg] true false =
      { status := 500, detail := .unhandledLockError, produced := [], db := dbOne }
    ∧ ¬ (publish dbOne 1 none "events" [smallMsg] true false).status = 503
    ∧ ¬ (publish dbOne 1 none "events" [smallMsg] true false).status = 200 := by
  exact ⟨rfl, by decide, by decide⟩

/-- The shape of a publish request that answers 200: its resolution,
validation and quota steps all passed. -/
theorem publish_status_200_shape {db : Db} {userId : Nat} {scope : Option Nat}
    {topicName : String} {messages : List Json} {lockOk : Bool}
    (h : (publish db userId scope topicName messages true lockOk).status = 200) :
    ∃ pid, resolveProjectId db userId scope = .ok pid ∧
      (∃ topic, findTopic db pid topicName = some topic) ∧
      firstOversize messages = none ∧
      check_quota (db.qstate userId pid) .dIn ((messages.map msgBytes).sum)
        messages.length lockOk = none := by
  unfold publish at h
  cases hres : resolveProjectId db userId scope with
  | error d => simp only [hres] at h; exact absurd h (by decide)
  | ok pid =>
    simp only [hres] at h
    unfold publishWithProject at h
    cases htop : findTopic db pid topicName with
    | none => simp only [htop] at h; exact absurd h (by decide)
    | some topic =>
      simp only [htop] at h
      cases hov : firstOversize messages with
      | some pr =>
        obtain ⟨i, sz⟩ := pr
        simp only [hov] at h; exact absurd h (by decide)
      | none =>
        simp only [hov] at h
        cases hcq : check_quota (db.qstate userId pid) .dIn
            ((messages.map msgBytes).sum) messages.length lockOk with
        | some e =>
          cases e with
          | lockUnavailable => simp only [hcq] at h; exact absurd h (by decide)
          | quota q => simp only [hcq] at h; exact absurd h (by decide)
        | none => exact ⟨pid, rfl, ⟨topic, htop⟩, rfl, hcq⟩

/-- C3, amended.  The retry discipline the claim describes lives in the
standalone `check_and_increment_usage`: with the row lock never available
it sleeps 10, 20 and 40 ms and then raises the 503; if the lock frees up
at the second retry it has slept 10 and 20 ms and commits, and at the
third retry 10, 20 and 40 ms and commits.  But the publish route calls
the non-retrying `check_quota` / `increment_usage` pair instead: a
publish request that would have succeeded answers the generic 500 — not
503, with no retry — when the lock is held. -/
theorem c3_lock_retry_discipline (st : QState) (dir : Direction)
    (bytesCount msgCount : Nat) :
    check_and_increment_usage st dir bytesCount msgCount (fun _ => false) =
      ([10, 20, 40], .error .transient503)
    ∧ (∀ st', checkAndIncrementAttempt st dir bytesCount msgCount = .ok st' →
        check_and_increment_usage st dir bytesCount msgCount (fun k => k == 2) =
          ([10, 20], .ok st'))
    ∧ (∀ st', checkAndIncrementAttempt st dir bytesCount msgCount = .ok st' →
        check_and_increment_usage st dir bytesCount msgCount (fun k => k == 3) =
          ([10, 20, 40], .ok st'))
    ∧ (∀ (db : Db) (userId : Nat) (scope : Option Nat) (topicName : String)
        (messages : List Json) (kafkaOk : Bool),
        (publish db userId scope topicName messages true true).status = 200 →
        publish db userId scope topicName messages kafkaOk false =
          { status := 500, detail := .unhandledLockError, produced := [], db := db }) := by
  refine ⟨rfl, ?_, ?_, ?_⟩
  · intro st' hok
    simp [check_and_increment_usage, caiAux, hok, MAX_RETRIES]
  · intro st' hok
    simp [check_and_increment_usage, caiAux, hok, MAX_RETRIES]
  · intro db userId scope topicName messages kafkaOk h
    obtain ⟨pid, hres, ⟨topic, htop⟩, hov, -⟩ := publish_status_200_shape h
    have hlock : check_quota (db.qstate userId pid) .dIn
        ((messages.map msgBytes).sum) messages.length false =
        some .lockUnavailable := rfl
    unfold publish
    rw [hres]
    simp only [publishWithProject, htop, hov, hlock]

/-- C3, witness: both amended behaviours at concrete inputs — the seeded
quota state of the retry scenario, and the one-tenant publish fixture. -/
theorem c3_lock_retry_witness :
    check_and_increment_usage ⟨⟨0, 0, 0, 0⟩, ⟨0, 0⟩⟩ .dIn 11 1 (fun k => k == 2) =
      ([10, 20], .ok (increment_usage ⟨⟨0, 0, 0, 0⟩, ⟨0, 0⟩⟩ .dIn 11 1))
    ∧ publish dbOne 1 none "events" [smallMsg] true false =
      { status := 500, detail := .unhandledLockError, produced := [], db := dbOne } := by
  refine ⟨(c3_lock_retry_discipline ⟨⟨0, 0, 0, 0⟩, ⟨0, 0⟩⟩ .dIn 11 1).2.1 _ rfl, ?_⟩
  exact (c3_lock_retry_discipline ⟨⟨0, 0, 0, 0⟩, ⟨0, 0⟩⟩ .dIn 11 1).2.2.2
    dbOne 1 none "events" [smallMsg] true rfl

/-! ## C4 — the check-and-increment contract and the counter invariant -/

/-- A breached attempt rejects without returning a state. -/
theorem attempt_of_breach {st : QState} {dir : Direction} {b m : Nat}
    (h : breachCond st dir b m) :
    ∃ e, checkAndIncrementAttempt st dir b m = .error e := by
  cases dir with
  | dIn =>
    simp only [breachCond] at h
    simp only [checkAndIncrementAttempt]
    split_ifs with h1 h2 h3 h4
    · exact ⟨_, rfl⟩
    · exact ⟨_, rfl⟩
    · exact ⟨_, rfl⟩
    · exact ⟨_, rfl⟩
    · rcases h with h | h | h | h <;> contradiction
  | dOut =>
    simp only [breachCond] at h
    simp only [checkAndIncrementAttempt]
    split_ifs with h1 h2
    · exact ⟨_, rfl⟩
    · exact ⟨_, rfl⟩
    · rcases h with h | h <;> contradiction

/-- An unbreached attempt commits exactly the `increment_usage` update. -/
theorem attempt_of_not_breach {st : QState} {dir : Direction} {b m : Nat}
    (h : ¬ breachCond st dir b m) :
    checkAndIncrementAttempt st dir b m = .ok (increment_usage st dir b m) := by
  cases dir with
  | dIn =>
    simp only [breachCond, not_or, not_lt] at h
    obtain ⟨h1, h2, h3, h4⟩ := h
    simp [checkAndIncrementAttempt, increment_usage, Nat.not_lt.mpr h1,
      Nat.not_lt.mpr h2, Nat.not_lt.mpr h3, Nat.not_lt.mpr h4]
  | dOut =>
    simp only [breachCond, not_or, not_lt] at h
    obtain ⟨h1, h2⟩ := h
    simp [checkAndIncrementAttempt, increment_usage, Nat.not_lt.mpr h1,
      Nat.not_lt.mpr h2]

/-- With its locks uncontended, `check_and_increment_usage` runs its first
attempt, with no sleeps. -/
theorem caiRun_lock_free (st : QState) (dir : Direction) (b m : Nat) :
    caiRun st dir b m (fun _ => true) =
      match checkAndIncrementAttempt st dir b m with
      | .ok st' => (st', [], none)
      | .error e => (st, [], some (.quota e)) := by
  cases h : checkAndIncrementAttempt st dir b m with
  | ok st' => simp [caiRun, check_and_increment_usage, caiAux, h]
  | error e => simp [caiRun, check_and_increment_usage, caiAux, h]

/-- The quota invariant: every counter is at or under its limit. -/
def QInv (st : QState) : Prop :=
  st.user.messagesIn ≤ FREE_TIER_MESSAGES_LIMIT ∧
  st.user.bytesIn ≤ FREE_TIER_BYTES_LIMIT ∧
  st.user.messagesOut ≤ FREE_TIER_MESSAGES_LIMIT ∧
  st.user.bytesOut ≤ FREE_TIER_BYTES_LIMIT ∧
  st.global.messagesIn ≤ MAX_TOTAL_MESSAGES_IN ∧
  st.global.bytesIn ≤ MAX_TOTAL_BYTES_IN

/-- One uncontended check-and-increment call preserves the invariant. -/
theorem quotaStep_inv {st : QState} (op : Direction × Nat × Nat)
    (h : QInv st) : QInv (quotaStep st op) := by
  obtain ⟨dir, b, m⟩ := op
  unfold quotaStep
  rw [caiRun_lock_free]
  by_cases hb : breachCond st dir b m
  · obtain ⟨e, he⟩ := attempt_of_breach hb
    rw [he]
    exact h
  · rw [attempt_of_not_breach hb]
    cases dir with
    | dIn =>
      simp only [breachCond] at hb
      simp only [QInv, increment_usage] at h ⊢
      omega
    | dOut =>
      simp only [breachCond] at hb
      simp only [QInv, increment_usage] at h ⊢
      omega

/-- The invariant holds along any day of traffic. -/
theorem runQuota_foldl_inv (ops : List (Direction × Nat × Nat)) :
    ∀ st : QState, QInv st → QInv (ops.foldl quotaStep st) := by
  induction ops with
  | nil => exact fun st h => h
  | cons op ops ih =>
    intro st h
    exact ih (quotaStep st op) (quotaStep_inv op h)

/-- C4.  A check-and-increment call whose counts would push a per-tenant
counter over its free-tier limit — or, inbound, a global counter over its
cluster-wide limit — answers 429 with every counter left unchanged and no
sleeps; any other call adds exactly the byte and message counts to the
direction-specific counters (and, inbound, to the global ones).
Consequently, along any sequence of calls from the zero rows, each
counter stays at or under its limit — in particular under its limit plus
the largest single-request batch. -/
theorem c4_check_and_increment_contract (st : QState) (dir : Direction)
    (bytesCount msgCount : Nat) :
    (breachCond st dir bytesCount msgCount →
      ∃ e, caiRun st dir bytesCount msgCount (fun _ => true) =
        (st, [], some (.quota e)))
    ∧ (¬ breachCond st dir bytesCount msgCount →
      caiRun st dir bytesCount msgCount (fun _ => true) =
        (increment_usage st dir bytesCount msgCount, [], none))
    ∧ (∀ ops : List (Direction × Nat × Nat),
        (runQuota ops).user.messagesIn ≤ FREE_TIER_MESSAGES_LIMIT ∧
        (runQuota ops).user.bytesIn ≤ FREE_TIER_BYTES_LIMIT ∧
        (runQuota ops).user.messagesOut ≤ FREE_TIER_MESSAGES_LIMIT ∧
        (runQuota ops).user.bytesOut ≤ FREE_TIER_BYTES_LIMIT ∧
        (runQuota ops).global.messagesIn ≤ MAX_TOTAL_MESSAGES_IN ∧
        (runQuota ops).global.bytesIn ≤ MAX_TOTAL_BYTES_IN) := by
  refine ⟨fun hb => ?_, fun hnb => ?_, fun ops => ?_⟩
  · obtain ⟨e, he⟩ := attempt_of_breach hb
    exact ⟨e, by rw [caiRun_lock_free, he]⟩
  · rw [caiRun_lock_free, attempt_of_not_breach hnb]
  · exact runQuota_foldl_inv ops _ (by simp [QInv])

/-- The seeded state of the daily-user-limit scenario: `messages_in`
already at 10000. -/
def stSeeded : QState := ⟨⟨10000, 0, 0, 0⟩, ⟨0, 0⟩⟩

/-- C4, witness: one more message on the seeded state is rejected with
the state kept; the same request on the zero state commits exactly its
counts. -/
theorem c4_contract_witness :
    (∃ e, caiRun stSeeded .dIn 11 1 (fun _ => true) =
      (stSeeded, [], some (.quota e)))
    ∧ caiRun ⟨⟨0, 0, 0, 0⟩, ⟨0, 0⟩⟩ .dIn 11 1 (fun _ => true) =
        (increment_usage ⟨⟨0, 0, 0, 0⟩, ⟨0, 0⟩⟩ .dIn 11 1, [], none) := by
  refine ⟨(c4_check_and_increment_contract stSeeded .dIn 11 1).1 ?_,
    (c4_check_and_increment_contract ⟨⟨0, 0, 0, 0⟩, ⟨0, 0⟩⟩ .dIn 11 1).2.1 ?_⟩
  · decide
  · decide

/-! ## C5 — the per-message payload cap -/

/-- The validation loop reports the first offending index: the message at
the returned index exceeds the cap, every earlier one is within it. -/
theorem firstOversize_spec (msgs : List Json) : ∀ (i sz : Nat),
    firstOversize msgs = some (i, sz) →
    ∃ v, msgs[i]? = some v ∧ msgBytes v = sz ∧ msgBytes v > MAX_PAYLOAD_SIZE ∧
      ∀ j, j < i → ∀ w, msgs[j]? = some w → msgBytes w ≤ MAX_PAYLOAD_SIZE := by
  induction msgs with
  | nil => intro i sz h; simp [firstOversize] at h
  | cons v rest ih =>
    intro i sz h
    simp only [firstOversize] at h
    by_cases hv : msgBytes v > MAX_PAYLOAD_SIZE
    · rw [if_pos hv] at h
      simp only [Option.some.injEq, Prod.mk.injEq] at h
      obtain ⟨hi, hsz⟩ := h
      subst hi
      subst hsz
      exact ⟨v, by simp, rfl, hv, fun j hj => absurd hj (Nat.not_lt_zero j)⟩
    · rw [if_neg hv] at h
      cases hrec : firstOversize rest with
      | none => rw [hrec] at h; simp at h
      | some pr =>
        obtain ⟨iRest, sRest⟩ := pr
        rw [hrec] at h
        simp only [Option.some.injEq, Prod.mk.injEq] at h
        obtain ⟨hi, hsz⟩ := h
        subst hi
        subst hsz
        obtain ⟨w, hw1, hw2, hw3, hw4⟩ := ih iRest sRest hrec
        refine ⟨w, by simpa using hw1, hw2, hw3, ?_⟩
        intro j hj u hu
        cases j with
        | zero =>
          have : v = u := by simpa using hu
          subst this
          exact Nat.le_of_not_lt hv
        | succ jRest =>
          exact hw4 jRest (by omega) u (by simpa using hu)

/-- C5.  A publish request that reaches validation — its project and
topic resolve — and contains an oversize message answers 413 carrying the
index and size of the first message whose JSON encoding exceeds
MAX_PAYLOAD_SIZE; the database is untouched (the quota step is neither
consulted nor counted, whatever the lock and broker states) and nothing
is produced. -/
theorem c5_first_oversize_413 (db : Db) (userId : Nat) (scope : Option Nat)
    (topicName : String) (messages : List Json) (kafkaOk lockOk : Bool)
    (pid i sz : Nat)
    (hres : resolveProjectId db userId scope = .ok pid)
    (htop : (findTopic db pid topicName).isSome)
    (hov : firstOversize messages = some (i, sz)) :
    publish db userId scope topicName messages kafkaOk lockOk =
      { status := 413, detail := .payloadTooLarge i sz, produced := [], db := db }
    ∧ ∃ v, messages[i]? = some v ∧ msgBytes v = sz ∧
        msgBytes v > MAX_PAYLOAD_SIZE ∧
        ∀ j, j < i → ∀ w, messages[j]? = some w →
          msgBytes w ≤ MAX_PAYLOAD_SIZE := by
  constructor
  · obtain ⟨topic, htopEq⟩ := Option.isSome_iff_exists.mp htop
    unfold publish
    rw [hres]
    simp only [publishWithProject, htopEq, hov]
  · exact firstOversize_spec messages i sz hov

/-- The 65537-byte message of the payload-cap scenario: a string of 65535
`x` characters, whose JSON encoding adds the two quotes. -/
def bigMsg : Json := .str (List.replicate 65535 'x')

/-- `x` needs no JSON escape. -/
theorem escChar_x : escChar 'x' = ['x'] := by decide

/-- Escaping a run of `x` keeps its length. -/
theorem flatten_escChar_replicate (n : Nat) :
    ((List.replicate n 'x').map escChar).flatten.length = n := by
  induction n with
  | zero => rfl
  | succ n ih => simp [List.replicate_succ, escChar_x, ih]

/-- The JSON encoding of a string of `n` plain `x` characters occupies
`n + 2` bytes. -/
theorem msgBytes_str_replicate_x (n : Nat) :
    msgBytes (.str (List.replicate n 'x')) = n + 2 := by
  simp only [msgBytes, pyDumps, encodeJsonString, List.length_cons,
    List.length_append, flatten_escChar_replicate, List.length_nil]

/-- C5, witness: one 65537-byte message published to the one-tenant
fixture answers 413 with index 0. -/
theorem c5_payload_witness :
    publish dbOne 1 none "events" [bigMsg] true true =
      { status := 413, detail := .payloadTooLarge 0 65537, produced := [],
        db := dbOne } := by
  have hb : msgBytes bigMsg = 65537 := msgBytes_str_replicate_x 65535
  have hgt : msgBytes bigMsg > MAX_PAYLOAD_SIZE := by rw [hb]; decide
  have hov : firstOversize [bigMsg] = some (0, 65537) := by
    simp only [firstOversize]
    rw [if_pos hgt, hb]
  exact (c5_first_oversize_413 dbOne 1 none "events" [bigMsg] true true
    10 0 65537 rfl rfl hov).1

/-! ## C6 — registry lemmas and the bounded-set invariant -/

/-- An entry of an updated association list is an old entry or the
written one. -/
theorem mem_setEntry {α β : Type} [DecidableEq α] {l : List (α × β)}
    {k : α} {v : β} {e : α × β} (h : e ∈ setEntry l k v) :
    e ∈ l ∨ e = (k, v) := by
  induction l with
  | nil => simpa [setEntry] using h
  | cons a rest ih =>
    simp only [setEntry] at h
    by_cases hk : a.1 = k
    · rw [if_pos hk] at h
      rcases List.mem_cons.mp h with h1 | h1
      · exact .inr h1
      · exact .inl (List.mem_cons_of_mem a h1)
    · rw [if_neg hk] at h
      rcases List.mem_cons.mp h with h1 | h1
      · exact .inl (h1 ▸ List.mem_cons_self a rest)
      · rcases ih h1 with h2 | h2
        · exact .inl (List.mem_cons_of_mem a h2)
        · exact .inr h2

/-- Looking a key up right after writing it returns the written value. -/
theorem lookupConns_setConns (m : ConnMap) (u : String)
    (cs : List ConnectionInfo) : lookupConns (setConns m u cs) u = some cs := by
  induction m with
  | nil => simp [lookupConns, setConns, setEntry, List.find?]
  | cons a rest ih =>
    simp only [lookupConns, setConns, setEntry] at ih ⊢
    by_cases hk : a.1 = u
    · rw [if_pos hk]
      simp [List.find?]
    · rw [if_neg hk]
      simpa [List.find?, hk] using ih

/-- Overwriting a key twice keeps only the second write. -/
theorem setEntry_setEntry {α β : Type} [DecidableEq α] (l : List (α × β))
    (k : α) (a b : β) : setEntry (setEntry l k a) k b = setEntry l k b := by
  induction l with
  | nil => simp [setEntry]
  | cons e rest ih =>
    by_cases hk : e.1 = k
    · simp [setEntry, hk]
    · simp [setEntry, hk, ih]

/-- A deleted key no longer resolves. -/
theorem lookupConns_delConns (m : ConnMap) (u : String) :
    lookupConns (delConns m u) u = none := by
  induction m with
  | nil => rfl
  | cons a rest ih =>
    by_cases hk : a.1 = u
    · simp only [delConns, List.filter_cons, hk] at ih ⊢
      simpa using ih
    · simp only [delConns, List.filter_cons] at ih ⊢
      simp only [lookupConns, List.find?_cons] at ih ⊢
      simp [hk, ih]

/-- A resolved descriptor set is the payload of some stored entry. -/
theorem lookupConns_mem {m : ConnMap} {u : String} {cs : List ConnectionInfo}
    (h : lookupConns m u = some cs) : ∃ e ∈ m, e.2 = cs := by
  unfold lookupConns at h
  cases hf : m.find? (fun e => e.1 = u) with
  | none => rw [hf] at h; simp at h
  | some e =>
    rw [hf] at h
    simp at h
    exact ⟨e, List.mem_of_find?_eq_some hf, h⟩

/-- A tenant at or over the limit is turned away and the map kept. -/
theorem register_eq_of_ge {m : ConnMap} {u cs} (t f : String)
    (hl : lookupConns m u = some cs)
    (hlen : MAX_CONNECTIONS_PER_USER ≤ cs.length) :
    register_connection m u t f = ((false, ""), m) := by
  unfold register_connection
  simp only [hl, if_pos hlen]

/-- A tenant under the limit is admitted with the provided fresh
identifier added to its set. -/
theorem register_eq_of_lt {m : ConnMap} {u cs} (t f : String)
    (hl : lookupConns m u = some cs)
    (hlen : cs.length < MAX_CONNECTIONS_PER_USER) :
    register_connection m u t f =
      ((true, f), setConns m u (setAdd cs ⟨f, t⟩)) := by
  unfold register_connection
  simp only [hl, if_neg (Nat.not_le.mpr hlen)]

/-- A tenant with no entry is admitted with a singleton set. -/
theorem register_eq_of_none {m : ConnMap} {u} (t f : String)
    (hl : lookupConns m u = none) :
    register_connection m u t f = ((true, f), setConns m u [⟨f, t⟩]) := by
  unfold register_connection
  simp only [hl]

/-- Unregistering an absent tenant is a no-op. -/
theorem unregister_eq_of_none {m : ConnMap} {u} (c : String)
    (hl : lookupConns m u = none) : unregister_connection m u c = m := by
  unfold unregister_connection
  simp only [hl]

/-- Removing the last descriptor prunes the tenant's entry. -/
theorem unregister_eq_of_empty {m : ConnMap} {u cs} (c : String)
    (hl : lookupConns m u = some cs)
    (hz : (cs.filter (fun x => !(x.connectionId = c))).length = 0) :
    unregister_connection m u c = delConns m u := by
  unfold unregister_connection
  simp only [hl, if_pos hz]

/-- Removing a descriptor with others left keeps a nonempty entry. -/
theorem unregister_eq_of_rest {m : ConnMap} {u cs} (c : String)
    (hl : lookupConns m u = some cs)
    (hz : ¬ (cs.filter (fun x => !(x.connectionId = c))).length = 0) :
    unregister_connection m u c =
      setConns m u (cs.filter (fun x => !(x.connectionId = c))) := by
  unfold unregister_connection
  simp only [hl, if_neg hz]

/-- The registry invariant of the claim: every stored set holds at most
MAX_CONNECTIONS_PER_USER descriptors and none is empty. -/
def ConnInv (m : ConnMap) : Prop :=
  ∀ e ∈ m, e.2.length ≤ MAX_CONNECTIONS_PER_USER ∧ e.2 ≠ []

/-- `register_connection` preserves the registry invariant. -/
theorem register_inv {m : ConnMap} {u t f : String} (h : ConnInv m) :
    ConnInv (register_connection m u t f).2 := by
  cases hl : lookupConns m u with
  | some cs =>
    by_cases hlen : MAX_CONNECTIONS_PER_USER ≤ cs.length
    · rw [register_eq_of_ge t f hl hlen]
      exact h
    · rw [register_eq_of_lt t f hl (Nat.not_le.mp hlen)]
      intro e he
      rcases mem_setEntry he with he' | rfl
      · exact h e he'
      · dsimp only
        constructor
        · have hle : (setAdd cs ⟨f, t⟩).length ≤ cs.length + 1 := by
            unfold setAdd
            split_ifs <;> simp
          omega
        · unfold setAdd
          split_ifs with hmem
          · intro hnil
            rw [hnil] at hmem
            simp at hmem
          · simp
  | none =>
    rw [register_eq_of_none t f hl]
    intro e he
    rcases mem_setEntry he with he' | rfl
    · exact h e he'
    · exact ⟨by simp [MAX_CONNECTIONS_PER_USER], by simp⟩

/-- `unregister_connection` preserves the registry invariant. -/
theorem unregister_inv {m : ConnMap} {u c : String} (h : ConnInv m) :
    ConnInv (unregister_connection m u c) := by
  cases hl : lookupConns m u with
  | none => rw [unregister_eq_of_none c hl]; exact h
  | some cs =>
    by_cases hz : (cs.filter (fun x => !(x.connectionId = c))).length = 0
    · rw [unregister_eq_of_empty c hl hz]
      intro e he
      exact h e (List.mem_of_mem_filter he)
    · rw [unregister_eq_of_rest c hl hz]
      intro e he
      rcases mem_setEntry he with he' | rfl
      · exact h e he'
      · dsimp only
        obtain ⟨e0, he0, he0eq⟩ := lookupConns_mem hl
        have hb := h e0 he0
        rw [he0eq] at hb
        constructor
        · exact le_trans (List.length_filter_le _ _) hb.1
        · intro hnil
          exact hz (by rw [hnil]; rfl)

/-- The registry invariant holds along any call sequence from the empty
map. -/
theorem trackerOps_inv (ops : List TrackerOp) :
    ∀ m : ConnMap, ConnInv m → ConnInv (ops.foldl applyTrackerOp m) := by
  induction ops with
  | nil => exact fun m h => h
  | cons op ops ih =>
    intro m h
    refine ih _ ?_
    cases op with
    | reg u t f => exact register_inv h
    | unreg u c => exact unregister_inv h

/-- C6.  `register_connection` turns a tenant away — with `(False, "")`
and the map unchanged — exactly when it already holds
MAX_CONNECTIONS_PER_USER (3) or more descriptors, and otherwise admits it
with the freshly drawn identifier; `unregister_connection` is idempotent;
and along every call sequence from the empty registry, every tenant entry
holds between 1 and 3 descriptors — no tenant maps to an empty set and no
set ever exceeds 3 elements. -/
theorem c6_registry_bounded (m : ConnMap) (u topicName freshId connId : String) :
    (∀ cs, lookupConns m u = some cs → MAX_CONNECTIONS_PER_USER ≤ cs.length →
      register_connection m u topicName freshId = ((false, ""), m))
    ∧ (∀ cs, lookupConns m u = some cs → cs.length < MAX_CONNECTIONS_PER_USER →
      (register_connection m u topicName freshId).1 = (true, freshId))
    ∧ (lookupConns m u = none →
      (register_connection m u topicName freshId).1 = (true, freshId))
    ∧ unregister_connection (unregister_connection m u connId) u connId =
        unregister_connection m u connId
    ∧ (∀ ops : List TrackerOp, ∀ e ∈ runTrackerOps ops,
        e.2.length ≤ MAX_CONNECTIONS_PER_USER ∧ e.2 ≠ []) := by
  refine ⟨fun cs hl hlen => register_eq_of_ge topicName freshId hl hlen,
    fun cs hl hlen => by rw [register_eq_of_lt topicName freshId hl hlen],
    fun hl => by rw [register_eq_of_none topicName freshId hl],
    ?_,
    fun ops => trackerOps_inv ops [] (by intro e he; simp at he)⟩
  cases hl : lookupConns m u with
  | none => rw [unregister_eq_of_none connId hl, unregister_eq_of_none connId hl]
  | some cs =>
    by_cases hz : (cs.filter (fun x => !(x.connectionId = connId))).length = 0
    · rw [unregister_eq_of_empty connId hl hz]
      exact unregister_eq_of_none connId (lookupConns_delConns m u)
    · rw [unregister_eq_of_rest connId hl hz]
      have hff : (cs.filter (fun x => !(x.connectionId = connId))).filter
          (fun x => !(x.connectionId = connId)) =
          cs.filter (fun x => !(x.connectionId = connId)) := by
        rw [List.filter_filter]
        simp
      rw [unregister_eq_of_rest connId
        (lookupConns_setConns m u (cs.filter (fun x => !(x.connectionId = connId))))
        (by rw [hff]; exact hz)]
      rw [hff]
      exact setEntry_setEntry m u _ _

/-- A tenant already holding three descriptors. -/
def mThree : ConnMap :=
  [("u1", [⟨"a", "events"⟩, ⟨"b", "events"⟩, ⟨"c", "events"⟩])]

/-- C6, witness: a fourth registration for a tenant holding three
descriptors is refused with the map kept; a first registration for an
unknown tenant is admitted with the drawn identifier. -/
theorem c6_registry_witness :
    register_connection mThree "u1" "events" "d" = ((false, ""), mThree)
    ∧ (register_connection ([] : ConnMap) "u1" "events" "a").1 = (true, "a") := by
  exact ⟨(c6_registry_bounded mThree "u1" "events" "d" "x").1 _ rfl (by decide),
    (c6_registry_bounded ([] : ConnMap) "u1" "events" "a" "x").2.2.1 rfl⟩

/-! ## C7 — the password hasher round-trip -/

/-- C7.  Because both directions first reduce the plaintext to its
SHA-256 digest — 32 bytes, under bcrypt's 72-byte ceiling — verification
of a password against its own hash succeeds for plaintexts of any length;
and for any plaintext whose digest differs, verification fails, provided
the bcrypt derivation does not collide on distinct 32-byte inputs under
the stored salt (its library contract). -/
theorem c7_password_hash_roundtrip (sha : List Nat → List Nat)
    (bcryptKdf : List Nat → List Nat → List Nat) (p pOther salt : List Nat) :
    verify_password sha bcryptKdf p (hash_password sha bcryptKdf p salt) = true
    ∧ ((sha p).length = 32 → (sha pOther).length = 32 →
       (∀ a b, bcryptKdf a salt = bcryptKdf b salt → a = b) →
       sha pOther ≠ sha p →
       verify_password sha bcryptKdf pOther
         (hash_password sha bcryptKdf p salt) = false) := by
  constructor
  · simp [verify_password, hash_password, bcryptCheckpw, bcryptHashpw,
      preprocess_password]
  · intro hlp hlp2 hinj hne
    simp only [verify_password, hash_password, bcryptCheckpw, bcryptHashpw,
      preprocess_password, decide_eq_false_iff_not]
    intro heq
    rw [List.take_of_length_le (by rw [hlp2]; decide),
      List.take_of_length_le (by rw [hlp]; decide)] at heq
    exact hne (hinj _ _ heq)

/-- A toy digest for the witness: 31 zero bytes and the input length. -/
def shaLen (l : List Nat) : List Nat := List.replicate 31 0 ++ [l.length % 256]

/-- A toy derivation for the witness, injective in its input for a fixed
salt. -/
def kdfApp (a salt : List Nat) : List Nat := a ++ salt

set_option maxRecDepth 4000 in
/-- C7, witness: a 200-byte password verifies against its own hash, and a
password with a different digest is rejected. -/
theorem c7_password_witness :
    verify_password shaLen kdfApp (List.replicate 200 7)
      (hash_password shaLen kdfApp (List.replicate 200 7) [1, 2]) = true
    ∧ verify_password shaLen kdfApp [5]
      (hash_password shaLen kdfApp (List.replicate 200 7) [1, 2]) = false := by
  refine ⟨(c7_password_hash_roundtrip shaLen kdfApp (List.replicate 200 7) [5]
      [1, 2]).1,
    (c7_password_hash_roundtrip shaLen kdfApp (List.replicate 200 7) [5]
      [1, 2]).2 (by decide) (by decide)
      (fun a b h => List.append_cancel_right h) (by decide)⟩

/-! ## C8 — the token codec round-trip -/

/-- C8.  Decoding the token minted for a subject returns that subject at
any instant before the seven-day expiry; a token whose signature does not
recompute under the secret, or whose expiry has passed, decodes to
nothing. -/
theorem c8_jwt_roundtrip (hmac : List Nat → JwtClaims → List Nat)
    (secret : List Nat) (subject : String) (mintTime checkTime : Nat)
    (token : JwtToken) :
    (checkTime < mintTime + JWT_LIFETIME →
      decode_jwt hmac secret checkTime (create_jwt hmac secret mintTime subject)
        = some subject)
    ∧ (token.sig ≠ hmac secret token.claims →
      decode_jwt hmac secret checkTime token = none)
    ∧ (token.claims.exp < checkTime →
      decode_jwt hmac secret checkTime token = none) := by
  refine ⟨fun hlt => ?_, fun hsig => ?_, fun hexp => ?_⟩
  · have hcond : (create_jwt hmac secret mintTime subject).sig =
        hmac secret (create_jwt hmac secret mintTime subject).claims ∧
        ¬ (create_jwt hmac secret mintTime subject).claims.exp < checkTime := by
      refine ⟨rfl, ?_⟩
      show ¬ mintTime + JWT_LIFETIME < checkTime
      omega
    unfold decode_jwt
    rw [if_pos hcond]
    rfl
  · unfold decode_jwt
    exact if_neg (fun hand => hsig hand.1)
  · unfold decode_jwt
    exact if_neg (fun hand => hand.2 hexp)

/-- A toy signature for the witness. -/
def hmacToy (secret : List Nat) (claims : JwtClaims) : List Nat :=
  secret ++ [claims.exp % 256]

/-- C8, witness: a token minted at time 0 for subject `42` decodes to
`42` one second later, and decodes to nothing once seven days have
passed. -/
theorem c8_jwt_witness :
    decode_jwt hmacToy [9] 1 (create_jwt hmacToy [9] 0 "42") = some "42"
    ∧ decode_jwt hmacToy [9] (JWT_LIFETIME + 1)
        (create_jwt hmacToy [9] 0 "42") = none := by
  refine ⟨(c8_jwt_roundtrip hmacToy [9] "42" 0 1
      (create_jwt hmacToy [9] 0 "42")).1 (by decide), ?_⟩
  exact (c8_jwt_roundtrip hmacToy [9] "42" 0 (JWT_LIFETIME + 1)
      (create_jwt hmacToy [9] 0 "42")).2.2 (by decide)

/-! ## C9 — bearer precedence in the resolver -/

/-- A bearer identity always carries a null project scope. -/
theorem get_current_user_jwt_scope_none (credentials : Option String)
    (decode : String → Option Nat) (findActiveUser : Nat → Option UserRec)
    (r : UserRec × Option Nat)
    (h : get_current_user_jwt credentials decode findActiveUser = some r) :
    r.2 = none := by
  unfold get_current_user_jwt at h
  cases credentials with
  | none => simp at h
  | some tok =>
    cases hdec : decode tok with
    | none => simp [hdec] at h
    | some uid =>
      cases hfu : findActiveUser uid with
      | none => simp [hdec, hfu] at h
      | some u =>
        simp only [hdec, hfu, Option.some.injEq] at h
        rw [← h]

/-- C9.  When the bearer extraction succeeds, the resolver answers the
bearer identity whatever the API-key extraction returned; that identity's
project scope is null, and a publish under it resolves the tenant's
default project — the API key's scope is never consulted. -/
theorem c9_bearer_precedence (credentials : Option String)
    (decode : String → Option Nat) (findActiveUser : Nat → Option UserRec)
    (apiKeyResult : Option (UserRec × Nat)) (r : UserRec × Option Nat)
    (db : Db) (dp : ProjectRec)
    (hjwt : get_current_user_jwt credentials decode findActiveUser = some r)
    (hdp : db.projects.find? (fun p => p.userId = r.1.id && p.isDefault)
      = some dp) :
    get_current_user (get_current_user_jwt credentials decode findActiveUser)
      apiKeyResult = .ok r
    ∧ r.2 = none
    ∧ resolveProjectId db r.1.id r.2 = .ok dp.id := by
  have hnone := get_current_user_jwt_scope_none credentials decode
    findActiveUser r hjwt
  refine ⟨by rw [hjwt]; rfl, hnone, ?_⟩
  rw [hnone]
  simp only [resolveProjectId, hdp]

/-- C9, witness: a request carrying both a decodable bearer token for the
fixture tenant and a valid API key scoped to another project resolves to
the bearer identity with a null scope, and its publish uses the default
project. -/
theorem c9_bearer_witness :
    get_current_user (get_current_user_jwt (some "tok") (fun _ => some 1)
        (fun n => if n = 1 then some ⟨1, true⟩ else none))
        (some (⟨2, true⟩, 77))
      = .ok (⟨1, true⟩, none)
    ∧ resolveProjectId dbOne 1 none = .ok 10 := by
  have h := c9_bearer_precedence (some "tok") (fun _ => some 1)
    (fun n => if n = 1 then some ⟨1, true⟩ else none) (some (⟨2, true⟩, 77))
    (⟨1, true⟩, none) dbOne ⟨10, 1, true⟩ rfl rfl
  exact ⟨h.1, h.2.2⟩

/-! ## C10 — tenant isolation of topic resolution -/

/-- A resolved project is owned by the authenticated tenant. -/
theorem resolveProjectId_owner {db : Db} {userId : Nat} {scope : Option Nat}
    {pid : Nat} (h : resolveProjectId db userId scope = .ok pid) :
    ∃ p ∈ db.projects, p.id = pid ∧ p.userId = userId := by
  cases scope with
  | none =>
    unfold resolveProjectId at h
    cases hf : db.projects.find? (fun p => p.userId = userId && p.isDefault) with
    | none => simp [hf] at h
    | some proj =>
      simp only [hf, Except.ok.injEq] at h
      have hpred := List.find?_some hf
      simp only [Bool.and_eq_true, decide_eq_true_eq] at hpred
      exact ⟨proj, List.mem_of_find?_eq_some hf, h, hpred.1⟩
  | some pid0 =>
    unfold resolveProjectId at h
    cases hf : db.projects.find? (fun p => p.id = pid0 && p.userId = userId) with
    | none => simp [hf] at h
    | some proj =>
      simp only [hf, Except.ok.injEq] at h
      have hpred := List.find?_some hf
      simp only [Bool.and_eq_true, decide_eq_true_eq] at hpred
      exact ⟨proj, List.mem_of_find?_eq_some hf, by rw [hpred.1, h], hpred.2⟩

/-- A resolved topic is a stored topic whose display or broker name
matched, inside the resolved project. -/
theorem findTopic_matches {db : Db} {pid : Nat} {topicName : String}
    {t : TopicRec} (h : findTopic db pid topicName = some t) :
    t ∈ db.topics ∧ (t.name = topicName ∨ t.kafkaTopicName = topicName) ∧
      t.projectId = pid := by
  unfold findTopic at h
  cases hf : db.topics.find?
      (fun x => x.name = topicName && x.projectId = pid) with
  | some t0 =>
    simp only [hf, Option.some.injEq] at h
    subst h
    have hpred := List.find?_some hf
    simp only [Bool.and_eq_true, decide_eq_true_eq] at hpred
    exact ⟨List.mem_of_find?_eq_some hf, .inl hpred.1, hpred.2⟩
  | none =>
    simp only [hf] at h
    have hpred := List.find?_some h
    simp only [Bool.and_eq_true, decide_eq_true_eq] at hpred
    exact ⟨List.mem_of_find?_eq_some h, .inr hpred.1, hpred.2⟩

/-- C10.  Topic lookup happens only inside a project verified to belong
to the authenticated tenant: a resolved project is owned by the caller, a
resolved topic matched by display or broker name within that project, and
when every stored topic carrying the requested name sits in another
tenant's project the publish answers 404 with nothing produced and the
database untouched. -/
theorem c10_tenant_isolation (db : Db) (userId : Nat) (scope : Option Nat)
    (topicName : String) (messages : List Json) (kafkaOk lockOk : Bool) :
    ((∀ t ∈ db.topics, (t.name = topicName ∨ t.kafkaTopicName = topicName) →
        ∀ p ∈ db.projects, p.id = t.projectId → ¬ p.userId = userId) →
      (publish db userId scope topicName messages kafkaOk lockOk).status = 404
      ∧ (publish db userId scope topicName messages kafkaOk lockOk).produced = []
      ∧ (publish db userId scope topicName messages kafkaOk lockOk).db = db)
    ∧ (∀ pid, resolveProjectId db userId scope = .ok pid →
        ∃ p ∈ db.projects, p.id = pid ∧ p.userId = userId)
    ∧ (∀ pid t, resolveProjectId db userId scope = .ok pid →
        findTopic db pid topicName = some t →
        (t.name = topicName ∨ t.kafkaTopicName = topicName) ∧
          t.projectId = pid) := by
  refine ⟨fun hiso => ?_,
    fun pid h => resolveProjectId_owner h,
    fun pid t hres hft => (findTopic_matches hft).2⟩
  cases hres : resolveProjectId db userId scope with
  | error d =>
    have hpub : publish db userId scope topicName messages kafkaOk lockOk =
        { status := 404, detail := d, produced := [], db := db } := by
      unfold publish
      simp only [hres]
    rw [hpub]
    exact ⟨rfl, rfl, rfl⟩
  | ok pid =>
    have htop : findTopic db pid topicName = none := by
      cases hft : findTopic db pid topicName with
      | none => rfl
      | some t =>
        obtain ⟨hmem, hmatch, hproj⟩ := findTopic_matches hft
        obtain ⟨p, hpmem, hpid, huser⟩ := resolveProjectId_owner hres
        exact absurd huser (hiso t hmem hmatch p hpmem (by rw [hpid, ← hproj]))
    have hpub : publish db userId scope topicName messages kafkaOk lockOk =
        { status := 404, detail := .topicNotFound, produced := [], db := db } := by
      unfold publish
      simp only [hres, publishWithProject, htop]
    rw [hpub]
    exact ⟨rfl, rfl, rfl⟩

/-- Two tenants, each with a default project and one topic. -/
def dbTwo : Db :=
  { projects := [{ id := 10, userId := 1, isDefault := true },
                 { id := 20, userId := 2, isDefault := true }]
    topics := [{ id := 100, projectId := 10, name := "events"
                 kafkaTopicName := "user_1_events" },
               { id := 200, projectId := 20, name := "evil"
                 kafkaTopicName := "user_2_events" }]
    usage := []
    global := { messagesIn := 0, bytesIn := 0 } }

/-- C10, witness: tenant 1 publishing to the other tenant's topic name
gets 404, nothing produced, database untouched. -/
theorem c10_isolation_witness :
    (publish dbTwo 1 none "evil" [smallMsg] true true).status = 404
    ∧ (publish dbTwo 1 none "evil" [smallMsg] true true).produced = []
    ∧ (publish dbTwo 1 none "evil" [smallMsg] true true).db = dbTwo := by
  exact (c10_tenant_isolation dbTwo 1 none "evil" [smallMsg] true true).1
    (by decide)
